import Mathlib

/-!
# Verification of the llamacontroller core

A shallow embedding, in Lean 4, of the core of the `llamacontroller`
repository: GPU-id validation and normalization, port assignment, the GPU
detector's classification pipeline, the llama.cpp adapter's log ring buffer
and crash handling, CLI-argument rendering, and the lifecycle manager's
load/unload state transitions.  External effects (subprocess launching,
HTTP health checks, nvidia-smi invocation, the process registry file) are
modelled as explicit oracle inputs; everything else is translated directly
from the Python source.
-/

namespace LlamaController

/-! ## Python string primitives

Models of the Python string operations the source relies on:
`str.strip()` (default whitespace stripping), `int(...)` parsing of a
decimal literal, and `','.join(...)` / `str.split(',')`, which are
`List.intercalate` / `List.splitOn` at the character level. -/

/-- The ASCII whitespace characters stripped by Python's `str.strip()`
(and skipped by `\s` in the source's regexes). -/
def isPySpace (c : Char) : Bool :=
  c = ' ' || c = '\t' || c = '\n' || c = '\r' || c = '\x0b' || c = '\x0c'

/-- Model of Python `str.strip()`: drop leading and trailing whitespace. -/
def pyStrip (cs : List Char) : List Char :=
  ((cs.dropWhile isPySpace).reverse.dropWhile isPySpace).reverse

/-- Numeric value of a list of decimal digit characters. -/
def digitsVal (cs : List Char) : Nat :=
  cs.foldl (fun a c => 10 * a + (c.toNat - '0'.toNat)) 0

/-- Checks a Python decimal-digit body: digits with single underscores
allowed between digits (as accepted by `int(...)`), given that the first
character has already been checked to be a digit. -/
def pyDigitsCore : List Char → Bool
  | [] => true
  | [c] => c.isDigit
  | c :: d :: rest =>
    if c = '_' then d.isDigit && pyDigitsCore (d :: rest)
    else c.isDigit && pyDigitsCore (d :: rest)

/-- Model of Python `int(s)` on an already-stripped string: an optional
sign followed by a digit body.  Returns `none` where `int` raises
`ValueError`. -/
def parsePyInt (cs : List Char) : Option Int :=
  match cs with
  | '+' :: rest =>
    match rest with
    | [] => none
    | c :: _ =>
      if c.isDigit && pyDigitsCore rest then
        some (Int.ofNat (digitsVal (rest.filter (· ≠ '_')))) else none
  | '-' :: rest =>
    match rest with
    | [] => none
    | c :: _ =>
      if c.isDigit && pyDigitsCore rest then
        some (-(Int.ofNat (digitsVal (rest.filter (· ≠ '_'))))) else none
  | [] => none
  | c :: _ =>
    if c.isDigit && pyDigitsCore cs then
      some (Int.ofNat (digitsVal (cs.filter (· ≠ '_')))) else none

/-- Model of Python `','.join(parts)`. -/
def pyJoinComma (parts : List String) : String :=
  String.mk ([','].intercalate (parts.map String.toList))

/-- Model of Python `s.split(',')`, at the character level.
`List.splitOn` has exactly Python's semantics: the empty string splits to
one empty piece, and empty pieces between adjacent separators are kept. -/
def pySplitComma (s : String) : List (List Char) :=
  s.toList.splitOn ','

/-! ## GPU-id validation and normalization
(`ModelLifecycleManager._validate_and_parse_gpu_id` / `_normalize_gpu_id`,
`core/lifecycle.py`). -/

/-- The `Union[int, str]` input accepted for a GPU id. -/
inductive GpuId where
  | int (n : Int)
  | str (s : String)
  deriving DecidableEq, Repr

/-- The typed errors raised as `LifecycleError` in `core/lifecycle.py`;
the constructors carry the data interpolated into each message. -/
inductive LifecycleError where
  /-- `Invalid gpu_id '...'` (parse failure, out-of-range id, duplicates). -/
  | invalidGpuId (gpuId : String)
  /-- `Model not found: ...` -/
  | modelNotFound (modelId : String)
  /-- `GPU conflict: GPU(s) {overlap} already in use by '{key}' (model: '{model}')` -/
  | gpuConflict (overlap : List Int) (key : String) (model : String)
  /-- `Failed to start server: ...` -/
  | serverStartFailed
  /-- `Server failed to become ready within timeout` -/
  | serverNotReady
  /-- `Failed to unload model: Failed to stop server on GPU ...` -/
  | unloadFailed (gpuId : String)
  deriving DecidableEq, Repr

/-- The `str(gpu_id)` conversion applied to the `Union[int, str]` input. -/
def GpuId.toStr : GpuId → String
  | .int n => toString n
  | .str s => s

/-- Sequentially parse every comma-separated piece with `int(piece.strip())`,
failing (with `ValueError` in the source) on the first bad piece; models
the list comprehension in `_validate_and_parse_gpu_id`. -/
def parsePieces : List (List Char) → Option (List Int)
  | [] => some []
  | p :: ps =>
    match parsePyInt (pyStrip p), parsePieces ps with
    | some n, some ns => some (n :: ns)
    | _, _ => none

/-- `ModelLifecycleManager._validate_and_parse_gpu_id`: convert an integer
input to its string form, map the legacy `"both"` to `"0,1"`, split on
commas, parse each stripped piece as an integer, reject out-of-range ids
(outside `[0, 7]`) and duplicates, and return the sorted id list. -/
def validate_and_parse_gpu_id (gpu_id : GpuId) : Except LifecycleError (List Int) :=
  let s0 := gpu_id.toStr
  let s := if s0 = "both" then "0,1" else s0
  match parsePieces (pySplitComma s) with
  | none => .error (.invalidGpuId s)
  | some gpu_ids =>
    if gpu_ids.any (fun gid => decide (gid < 0) || decide (gid > 7)) then
      .error (.invalidGpuId s)
    else if gpu_ids.Nodup then
      .ok (gpu_ids.insertionSort (· ≤ ·))
    else
      .error (.invalidGpuId s)

/-- `ModelLifecycleManager._normalize_gpu_id`: the comma-join of the
validated, sorted id list. -/
def normalize_gpu_id (gpu_id : GpuId) : Except LifecycleError String :=
  (validate_and_parse_gpu_id gpu_id).map
    (fun gpu_list => pyJoinComma (gpu_list.map toString))

/-! ## Port assignment
(`ModelLifecycleManager.get_port_for_gpu`, `core/lifecycle.py`, and
`GpuPortsConfig`, `models/config.py`). -/

/-- `GpuPortsConfig` (`models/config.py`): the configured ports for GPU 0,
GPU 1 and the legacy both-GPUs key, with the source's defaults. -/
structure GpuPortsConfig where
  gpu0 : Int := 8081
  gpu1 : Int := 8088
  both : Int := 8081
  deriving DecidableEq, Repr

/-- `ModelLifecycleManager.get_port_for_gpu`: the port of the primary
(first, i.e. smallest after sorting) GPU in the validated list; GPU 0 and
GPU 1 use the configured ports, higher ids use `8081 + id * 7`.  The
empty-list branch is unreachable: validation always returns a nonempty
list. -/
def get_port_for_gpu (ports : GpuPortsConfig) (gpu_id : GpuId) :
    Except LifecycleError Int :=
  match validate_and_parse_gpu_id gpu_id with
  | .error e => .error e
  | .ok gpu_list =>
    match gpu_list with
    | [] => .error (.invalidGpuId gpu_id.toStr)
    | primary_gpu :: _ =>
      if primary_gpu = 0 then .ok ports.gpu0
      else if primary_gpu = 1 then .ok ports.gpu1
      else .ok (8081 + primary_gpu * 7)

/-! ## GPU detection
(`GpuDetector`, `core/gpu_detector.py`, and `GpuState`, `models/gpu.py`).

The two regular expressions of `parse_gpu_info` and the one of
`parse_gpu_processes` are modelled by hand-written character-level
matchers with the same token structure (`re`'s character classes `\s`,
`\d`, `\w`, `[\-\d]` are disjoint wherever two adjacent greedy pieces
meet, so the greedy runs are forced). -/

/-- `GpuState` (`models/gpu.py`). -/
inductive GpuState where
  | idle
  | model_loaded
  | occupied_by_others
  deriving DecidableEq, Repr

/-- `GpuProcessInfo` (`core/gpu_detector.py`). -/
structure GpuProcessInfo where
  gpu_index : Int
  pid : Nat
  process_name : String
  used_memory : Nat
  deriving DecidableEq, Repr

/-- `GpuInfo` (`core/gpu_detector.py`). -/
structure GpuInfo where
  index : Int
  memory_used : Nat
  memory_total : Nat
  deriving DecidableEq, Repr

/-- `GpuStatus` (`core/gpu_detector.py`). -/
structure GpuStatus where
  index : Int
  state : GpuState
  model_name : Option String := none
  process_info : Option (List GpuProcessInfo) := none
  select_enabled : Bool := true
  memory_used : Nat := 0
  memory_total : Nat := 0
  deriving DecidableEq, Repr

/-- Model of Python `s.split('\n')` applied to the nvidia-smi output. -/
def pyLines (s : String) : List (List Char) :=
  s.toList.splitOn '\n'

/-- Substring test, modelling Python's `pat in line`. -/
def isSubstring (pat : List Char) : List Char → Bool
  | [] => pat.isEmpty
  | l@(_ :: rest) => pat.isPrefixOf l || isSubstring pat rest

/-- Does a suffix of the list satisfy `p`?  (Used for the unanchored
parts of the matchers.) -/
def scanFor (p : List Char → Bool) : List Char → Bool
  | [] => p []
  | l@(_ :: rest) => p l || scanFor p rest

/-- `\s+(TCC|WDDM)` at the current position. -/
def wsMarker (l : List Char) : Bool :=
  !(l.takeWhile isPySpace).isEmpty &&
    ("TCC".toList.isPrefixOf (l.dropWhile isPySpace) ||
     "WDDM".toList.isPrefixOf (l.dropWhile isPySpace))

/-- The tail `\s+(.+?)\s+(TCC|WDDM)` of the GPU header regex, applied
after the index digits: at least one whitespace character, then (for some
choice of the backtracking boundaries) a nonempty lazy group followed by
whitespace and the `TCC`/`WDDM` marker — i.e. the marker pattern occurs
at an offset of at least two. -/
def headerTailOk (cs : List Char) : Bool :=
  match cs with
  | c :: _ :: rest2 => isPySpace c && scanFor wsMarker rest2
  | _ => false

/-- Model of `re.match(r'\|\s+(\d+)\s+(.+?)\s+(TCC|WDDM)', line)`,
returning group 1 (the GPU index). -/
def matchGpuHeader (line : List Char) : Option Nat :=
  match line with
  | '|' :: rest =>
    if (rest.takeWhile isPySpace).isEmpty then none
    else
      let r1 := rest.dropWhile isPySpace
      let digits := r1.takeWhile Char.isDigit
      if digits.isEmpty then none
      else if headerTailOk (r1.dropWhile Char.isDigit) then
        some (digitsVal digits)
      else none
  | _ => none

/-- `(\d+)MiB\s*/\s*(\d+)MiB` anchored at the current position. -/
def matchMemAt (l : List Char) : Option (Nat × Nat) :=
  let d1 := l.takeWhile Char.isDigit
  if d1.isEmpty then none
  else
    let r1 := l.dropWhile Char.isDigit
    if "MiB".toList.isPrefixOf r1 then
      match (r1.drop 3).dropWhile isPySpace with
      | '/' :: r4 =>
        let r5 := r4.dropWhile isPySpace
        let d2 := r5.takeWhile Char.isDigit
        if d2.isEmpty then none
        else if "MiB".toList.isPrefixOf (r5.dropWhile Char.isDigit) then
          some (digitsVal d1, digitsVal d2)
        else none
      | _ => none
    else none

/-- Model of `re.search(r'(\d+)MiB\s*/\s*(\d+)MiB', line)`: the leftmost
match of the memory pattern. -/
def searchMemory : List Char → Option (Nat × Nat)
  | [] => none
  | l@(_ :: rest) =>
    match matchMemAt l with
    | some r => some r
    | none => searchMemory rest

/-- `GpuDetector.parse_gpu_info` line loop: a header line sets the
current GPU index, and the first following memory token emits a record
and resets the index. -/
def parse_gpu_info_go : List (List Char) → Option Nat → List GpuInfo
  | [], _ => []
  | line :: rest, current =>
    let current1 := match matchGpuHeader line with
      | some idx => some idx
      | none => current
    match current1 with
    | some cg =>
      match searchMemory line with
      | some (u, t) =>
        { index := (cg : Int), memory_used := u, memory_total := t } ::
          parse_gpu_info_go rest none
      | none => parse_gpu_info_go rest (some cg)
    | none => parse_gpu_info_go rest none

/-- `GpuDetector.parse_gpu_info`. -/
def parse_gpu_info (nvidia_smi_output : String) : List GpuInfo :=
  parse_gpu_info_go (pyLines nvidia_smi_output) none

/-- `[\-\d]` character class. -/
def isDashDigit (c : Char) : Bool := c = '-' || c.isDigit

/-- `\w` character class (ASCII). -/
def isWordChar (c : Char) : Bool := c.isAlphanum || c = '_'

/-- `\s+(\d+)MiB` anchored at the current position, returning group 4 of
the process regex (the memory amount). -/
def memTailAt (l : List Char) : Option Nat :=
  if (l.takeWhile isPySpace).isEmpty then none
  else
    let r := l.dropWhile isPySpace
    let d := r.takeWhile Char.isDigit
    if d.isEmpty then none
    else if "MiB".toList.isPrefixOf (r.dropWhile Char.isDigit) then
      some (digitsVal d)
    else none

/-- Lazy scan for the shortest nonempty group 3 whose suffix matches
`\s+(\d+)MiB`; `acc` holds the reversed group so far. -/
def scanLazy (acc : List Char) : List Char → Option (List Char × Nat)
  | [] => none
  | l@(c :: rest) =>
    match memTailAt l with
    | some mem => some (acc.reverse, mem)
    | none => scanLazy (c :: acc) rest

/-- The tail `\s+(.+?)\s+(\d+)MiB` of the process-row regex, on rows
where the name group starts at the first non-whitespace character (as in
actual nvidia-smi process tables): leading whitespace, then the lazy
name group up to the memory token. -/
def procLazyTail (cs : List Char) : Option (List Char × Nat) :=
  if (cs.takeWhile isPySpace).isEmpty then none
  else
    match cs.dropWhile isPySpace with
    | [] => none
    | c :: t => scanLazy [c] t

/-- Model of
`re.match(r'\|\s+(\d+)\s+[\-\d]+\s+[\-\d]+\s+(\d+)\s+\w+\s+(.+?)\s+(\d+)MiB', line)`,
returning groups 1 (GPU index), 2 (pid), 3 (process name) and 4 (memory). -/
def matchProcLine (line : List Char) : Option (Nat × Nat × List Char × Nat) :=
  match line with
  | '|' :: rest =>
    if (rest.takeWhile isPySpace).isEmpty then none else
    let r1 := rest.dropWhile isPySpace
    let dg := r1.takeWhile Char.isDigit
    if dg.isEmpty then none else
    let r2 := r1.dropWhile Char.isDigit
    if (r2.takeWhile isPySpace).isEmpty then none else
    let r3 := r2.dropWhile isPySpace
    if (r3.takeWhile isDashDigit).isEmpty then none else
    let r4 := r3.dropWhile isDashDigit
    if (r4.takeWhile isPySpace).isEmpty then none else
    let r5 := r4.dropWhile isPySpace
    if (r5.takeWhile isDashDigit).isEmpty then none else
    let r6 := r5.dropWhile isDashDigit
    if (r6.takeWhile isPySpace).isEmpty then none else
    let r7 := r6.dropWhile isPySpace
    let dp := r7.takeWhile Char.isDigit
    if dp.isEmpty then none else
    let r8 := r7.dropWhile Char.isDigit
    if (r8.takeWhile isPySpace).isEmpty then none else
    let r9 := r8.dropWhile isPySpace
    if (r9.takeWhile isWordChar).isEmpty then none else
    let r10 := r9.dropWhile isWordChar
    match procLazyTail r10 with
    | some (g3, mem) => some (digitsVal dg, digitsVal dp, g3, mem)
    | none => none
  | _ => none

/-- `GpuDetector.parse_gpu_processes` line loop: rows are only matched
after a line containing `Processes:` has been seen. -/
def parse_gpu_procs_go : List (List Char) → Bool → List GpuProcessInfo
  | [], _ => []
  | line :: rest, in_process_section =>
    if isSubstring "Processes:".toList line then
      parse_gpu_procs_go rest true
    else if !in_process_section then
      parse_gpu_procs_go rest in_process_section
    else
      match matchProcLine line with
      | some (g, pid, name, mem) =>
        { gpu_index := (g : Int), pid := pid,
          process_name := String.mk (pyStrip name), used_memory := mem } ::
          parse_gpu_procs_go rest true
      | none => parse_gpu_procs_go rest true

/-- `GpuDetector.parse_gpu_processes`. -/
def parse_gpu_processes (nvidia_smi_output : String) : List GpuProcessInfo :=
  parse_gpu_procs_go (pyLines nvidia_smi_output) false

/-- The possible outcomes of the monitoring-command environment consumed
by `GpuDetector._run_nvidia_smi` (real subprocess run or mock-file read). -/
inductive SmiRun where
  /-- The command (or mock-file read) succeeded with this output. -/
  | output (s : String)
  /-- `subprocess.CalledProcessError` (non-zero exit). -/
  | procError
  /-- `subprocess.TimeoutExpired` (the 10-second bound elapsed). -/
  | timeout
  /-- `FileNotFoundError` (binary missing). -/
  | notFound
  /-- Mock mode with no `mock_data_path` configured. -/
  | mockNoPath
  /-- Mock data file does not exist. -/
  | mockMissing
  /-- Mock data file could not be read. -/
  | mockReadError
  deriving DecidableEq, Repr

/-- `GpuDetector._run_nvidia_smi` / `_get_mock_output`: every failure
becomes a `RuntimeError` carrying a message. -/
def run_nvidia_smi : SmiRun → Except String String
  | .output s => .ok s
  | .procError => .error "nvidia-smi command failed"
  | .timeout => .error "nvidia-smi command timed out"
  | .notFound => .error "nvidia-smi not found. NVIDIA drivers may not be installed."
  | .mockNoPath => .error "Mock mode enabled but no mock_data_path provided"
  | .mockMissing => .error "Mock data file not found"
  | .mockReadError => .error "Failed to read mock data file"

/-- The per-GPU classification step of `GpuDetector.detect_gpus`:
memory above the threshold means occupied (by this controller's model if
the mapping knows one, by others otherwise); at or below the threshold
the GPU is idle. -/
def classify_gpu (memory_threshold_mb : Nat) (mapping : Int → Option String)
    (process_info_list : List GpuProcessInfo) (gpu : GpuInfo) : GpuStatus :=
  if gpu.memory_used > memory_threshold_mb then
    match mapping gpu.index with
    | some model_name =>
      { index := gpu.index, state := .model_loaded,
        model_name := some model_name, select_enabled := true,
        memory_used := gpu.memory_used, memory_total := gpu.memory_total }
    | none =>
      let gpu_processes := process_info_list.filter
        (fun p => p.gpu_index == gpu.index)
      { index := gpu.index, state := .occupied_by_others,
        model_name := some "Occupied by someone else",
        process_info := if gpu_processes.isEmpty then none else some gpu_processes,
        select_enabled := false,
        memory_used := gpu.memory_used, memory_total := gpu.memory_total }
  else
    { index := gpu.index, state := .idle,
      model_name := mapping gpu.index, select_enabled := true,
      memory_used := gpu.memory_used, memory_total := gpu.memory_total }

/-- `GpuDetector._get_cpu_fallback`. -/
def cpu_fallback : List GpuStatus :=
  [{ index := -1, state := .idle, model_name := none,
     process_info := none, select_enabled := true,
     memory_used := 0, memory_total := 0 }]

/-- `GpuDetector.detect_gpus`: run the monitoring command, parse GPUs and
processes, fall back to the synthetic CPU record on any failure or an
empty device list, and otherwise classify each device. -/
def detect_gpus (run : SmiRun) (memory_threshold_mb : Nat)
    (mapping : Int → Option String) : List GpuStatus :=
  match run_nvidia_smi run with
  | .error _ => cpu_fallback
  | .ok nvidia_smi_output =>
    let gpu_info_list := parse_gpu_info nvidia_smi_output
    let process_info_list := parse_gpu_processes nvidia_smi_output
    if gpu_info_list.isEmpty then cpu_fallback
    else gpu_info_list.map
      (classify_gpu memory_threshold_mb mapping process_info_list)

/-! ## Model parameters and CLI-argument rendering
(`ModelParameters.get_cli_arguments`, `models/config.py`). -/

/-- A scalar parameter value, carrying its Python `str(...)` rendering. -/
inductive CliPrim where
  | int (n : Int)
  | str (s : String)
  | bool (b : Bool)
  deriving DecidableEq, Repr

/-- Python `str(value)` for a scalar parameter value. -/
def CliPrim.pyStr : CliPrim → String
  | .int n => toString n
  | .str s => s
  | .bool b => if b then "True" else "False"

/-- A value of the flexible `cli_params` mapping: `null`, a scalar, or a
list of scalars. -/
inductive CliVal where
  | null
  | prim (v : CliPrim)
  | list (vs : List CliPrim)
  deriving DecidableEq, Repr

/-- `ModelParameters` (`models/config.py`): the deprecated structured
fields plus the flexible `cli_params` mapping (an ordered dict). -/
structure ModelParameters where
  n_ctx : Option CliPrim := none
  n_gpu_layers : Option CliPrim := none
  n_threads : Option CliPrim := none
  temperature : Option CliPrim := none
  top_p : Option CliPrim := none
  top_k : Option CliPrim := none
  repeat_penalty : Option CliPrim := none
  cli_params : List (String × CliVal) := []
  deriving DecidableEq, Repr

/-- The fixed side-table of short-form flags rendered with a single dash
(`short_params` in `get_cli_arguments`). -/
def short_params : List String :=
  ["c", "t", "n", "b", "e", "s", "l", "j", "r", "v", "m", "a",
   "ngl", "tb", "ub", "np", "sm", "ts", "mg", "mu", "sp", "cb", "to",
   "fa", "nr", "dt", "lv", "dev", "hf", "dr", "td", "cd", "md", "mv",
   "nkvo", "ctk", "ctv", "nocb", "ngld", "cmoe", "ncmoe", "cmoed", "ncmoed",
   "hfr", "hff", "hft", "hfd", "hfv", "hffv", "hfrd", "hfrv", "jf",
   "otd", "sps", "tbd", "devd", "kvu"]

/-- The flag for a parameter key: single dash for short-form keys, double
dash otherwise. -/
def dashFlag (key : String) : String :=
  if key ∈ short_params then "-" ++ key else "--" ++ key

/-- The arguments contributed by one `cli_params` entry: a bare flag for
`null` (and for an empty list), the flag repeated before each element's
string form for a list, and flag-then-value for a scalar. -/
def renderParam (key : String) (value : CliVal) : List String :=
  match value with
  | .null => [dashFlag key]
  | .list vs =>
    if vs.isEmpty then [dashFlag key]
    else vs.flatMap (fun item => [dashFlag key, item.pyStr])
  | .prim v => [dashFlag key, v.pyStr]

/-- `key in cli_params` (dict membership). -/
def hasParam (cli_params : List (String × CliVal)) (key : String) : Bool :=
  cli_params.any (fun kv => kv.1 == key)

/-- Append a deprecated structured field's arguments when the field is
set and no `cli_params` key overrides it. -/
def appendDeprecated (cli_params : List (String × CliVal)) (args : List String)
    (field : Option CliPrim) (flag : String) (overrides : List String) :
    List String :=
  match field with
  | some v =>
    if overrides.any (fun k => hasParam cli_params k) then args
    else args ++ [flag, v.pyStr]
  | none => args

/-- `ModelParameters.get_cli_arguments`: render every `cli_params` entry
in order, then append the deprecated structured fields that are not
overridden. -/
def get_cli_arguments (p : ModelParameters) : List String :=
  let args := p.cli_params.foldl (fun acc kv => acc ++ renderParam kv.1 kv.2) []
  let args := appendDeprecated p.cli_params args p.n_ctx "--ctx-size" ["c", "ctx-size"]
  let args := appendDeprecated p.cli_params args p.n_gpu_layers "--n-gpu-layers" ["ngl", "n-gpu-layers"]
  let args := appendDeprecated p.cli_params args p.n_threads "--threads" ["t", "threads"]
  let args := appendDeprecated p.cli_params args p.temperature "--temp" ["temp"]
  let args := appendDeprecated p.cli_params args p.top_p "--top-p" ["top-p"]
  let args := appendDeprecated p.cli_params args p.top_k "--top-k" ["top-k"]
  let args := appendDeprecated p.cli_params args p.repeat_penalty "--repeat-penalty" ["repeat-penalty"]
  args

/-! ## The llama.cpp adapter's log ring buffer and crash handling
(`LlamaCppAdapter`, `core/adapter.py`). -/

/-- `ProcessStatus` (`models/lifecycle.py`).
Modelled from the spec: the enum module itself is not part of the core
sources; its members are those named by the spec's supervisor state
machine (`stopped`, `starting`, `running`, `stopping`, `crashed`,
`error`) and referenced throughout `core/adapter.py`. -/
inductive ProcessStatus where
  | stopped
  | starting
  | running
  | stopping
  | crashed
  | error
  deriving DecidableEq, Repr

/-- The capacity of `LlamaCppAdapter.log_buffer`
(`deque(maxlen=300)`, `core/adapter.py`). -/
def LOG_CAPACITY : Nat := 300

/-- One `log_buffer.append(line)`: the deque keeps the most recent
`LOG_CAPACITY` lines, evicting from the front. -/
def pushLog (buf : List String) (line : String) : List String :=
  let b := buf ++ [line]
  if b.length > LOG_CAPACITY then b.drop (b.length - LOG_CAPACITY) else b

/-- The buffer contents after the monitor thread appended the given lines
in order, starting from the empty buffer of a fresh adapter. -/
def runLog (lines : List String) : List String :=
  lines.foldl pushLog []

/-- `LlamaCppAdapter.get_logs`: `list(self.log_buffer)[-lines:]`.
Python's negative-index slice returns the last `lines` elements — except
that `[-0:]` is the whole list. -/
def get_logs (buf : List String) (lines : Nat) : List String :=
  if lines = 0 then buf else buf.drop (buf.length - lines)

/-- The adapter configuration fields consumed by crash handling
(`LlamaCppConfig`, `models/config.py`). -/
structure CrashConfig where
  restart_on_crash : Bool := true
  max_restart_attempts : Nat := 3
  deriving DecidableEq, Repr

/-- The observable outcome of the crash-handling path: the resulting
process status, the restart counter afterwards, the seconds slept before
a restart attempt (if any), and whether a new subprocess was launched. -/
structure CrashHandleResult where
  status : ProcessStatus
  restart_count : Nat
  waited : Option Nat
  relaunched : Bool
  deriving DecidableEq, Repr

/-- `LlamaCppAdapter._handle_crash`: give up with terminal `error` when
the restart budget is exhausted; otherwise sleep `min(2 ** restart_count, 60)`
seconds and — auto-restart being unimplemented — only log a warning,
leaving the status, the counter and the process untouched. -/
def handle_crash (config : CrashConfig) (restart_count : Nat)
    (status : ProcessStatus) : CrashHandleResult :=
  if restart_count ≥ config.max_restart_attempts then
    { status := .error, restart_count := restart_count,
      waited := none, relaunched := false }
  else
    { status := status, restart_count := restart_count,
      waited := some (min (2 ^ restart_count) 60), relaunched := false }

/-- The crash branch of `LlamaCppAdapter._monitor_process`: on an
unexpected process exit the status becomes `crashed`, and crash handling
runs if `restart_on_crash` is configured. -/
def monitor_handle_exit (config : CrashConfig) (restart_count : Nat) :
    CrashHandleResult :=
  let status := ProcessStatus.crashed
  if config.restart_on_crash then handle_crash config restart_count status
  else { status := status, restart_count := restart_count,
         waited := none, relaunched := false }

/-! ## The lifecycle manager
(`ModelLifecycleManager`, `core/lifecycle.py`).

The manager's `gpu_instances` dict and the process registry's store are
insertion-ordered association lists.  The effects of the adapter
(subprocess start, readiness polling, pid, memory query) are oracle
inputs; `load_model` / `unload_model` return the successor state next to
the raised error or the response. -/

/-- The fields of `ModelConfig` (`models/config.py`) the lifecycle
manager reads. -/
structure ModelConfig where
  id : String
  name : String
  path : String
  parameters : ModelParameters := {}
  deriving DecidableEq, Repr

/-- `GpuInstance` (`core/lifecycle.py`), without the adapter handle and
the wall-clock load time. -/
structure GpuInstance where
  gpu_id : String
  port : Int
  model_id : String
  model_config : ModelConfig
  memory_used_mb : Nat := 0
  memory_total_mb : Nat := 0
  deriving DecidableEq, Repr

/-- A registry entry.
Modelled from the spec: `core/process_registry.py` is not part of the
core sources; per §4.4 a record carries key, pid, model identifier and
name, model path, port and launch command. -/
structure ProcessRecord where
  pid : Nat
  model_id : String
  model_name : String
  model_path : String
  port : Int
  command_line : List String
  deriving DecidableEq, Repr

/-- Python dict assignment on an insertion-ordered association list:
replace in place if the key exists, append otherwise. -/
def setKey {α : Type} (l : List (String × α)) (k : String) (v : α) :
    List (String × α) :=
  match l with
  | [] => [(k, v)]
  | (k', v') :: rest =>
    if k' = k then (k, v) :: rest else (k', v') :: setKey rest k v

/-- Python `del d[key]` (and the registry's `unregister_process`). -/
def eraseKey {α : Type} (l : List (String × α)) (k : String) :
    List (String × α) :=
  l.filter (fun kv => ¬(kv.1 = k))

/-- Python `d.get(key)` / `key in d` on the association list. -/
def lookupKey {α : Type} (l : List (String × α)) (k : String) : Option α :=
  (l.find? (fun kv => kv.1 = k)).map (fun kv => kv.2)

/-- `ProcessRegistry.register_process`.
Modelled from the spec: §4.4's `register(key, ...)` on an
"append/overwrite durable key-value store". -/
def registry_register (reg : List (String × ProcessRecord)) (k : String)
    (r : ProcessRecord) : List (String × ProcessRecord) :=
  setKey reg k r

/-- The lifecycle manager's mutable state: the live instance map and the
process registry's store. -/
structure MgrState where
  gpu_instances : List (String × GpuInstance) := []
  registry : List (String × ProcessRecord) := []
  deriving DecidableEq, Repr

/-- The configuration the lifecycle manager reads
(`ConfigManager.models` / `.llama_cpp`). -/
structure MgrEnv where
  models : List ModelConfig := []
  gpu_ports : GpuPortsConfig := {}
  default_host : String := "127.0.0.1"
  executable_path : String := "llama-server"
  deriving DecidableEq, Repr

/-- `ModelsConfig.get_model` (`models/config.py`): first model with the
requested id. -/
def get_model (models : List ModelConfig) (model_id : String) :
    Option ModelConfig :=
  models.find? (fun m => m.id == model_id)

/-- The loop of `ModelLifecycleManager._check_gpu_conflicts`: re-parse
each active key and fail on the first whose id set intersects the
requested one, naming the overlap, the owning key and its model. -/
def check_conflicts_go (requested_gpus : List Int) :
    List (String × GpuInstance) → Except LifecycleError Unit
  | [] => .ok ()
  | (existing_key, inst) :: rest =>
    match validate_and_parse_gpu_id (.str existing_key) with
    | .error e => .error e
    | .ok existing_gpus =>
      let overlap := requested_gpus.filter (fun g => decide (g ∈ existing_gpus))
      if overlap.isEmpty then check_conflicts_go requested_gpus rest
      else .error (.gpuConflict overlap existing_key inst.model_id)

/-- `ModelLifecycleManager._check_gpu_conflicts`. -/
def check_gpu_conflicts (gpu_id : GpuId)
    (gpu_instances : List (String × GpuInstance)) :
    Except LifecycleError Unit :=
  match validate_and_parse_gpu_id gpu_id with
  | .error e => .error e
  | .ok requested => check_conflicts_go requested gpu_instances

/-- The adapter-side effects observed during one `load_model` call. -/
structure LoadOracle where
  /-- `adapter.start_server` did not raise `AdapterError`. -/
  start_ok : Bool := true
  /-- `_wait_for_ready` returned true within the 60-second budget. -/
  ready : Bool := true
  /-- `adapter.get_pid()` after the start. -/
  pid : Option Nat := some 1
  /-- `_query_gpu_memory` result (used / total MiB). -/
  memory_used : Nat := 0
  memory_total : Nat := 0
  deriving DecidableEq, Repr

/-- `LoadModelResponse` (success payload only; the status snapshot is
omitted). -/
structure LoadModelResponse where
  success : Bool
  model_id : String
  deriving DecidableEq, Repr

/-- `UnloadModelResponse`. -/
structure UnloadModelResponse where
  success : Bool
  message : String
  deriving DecidableEq, Repr

/-- `ModelLifecycleManager.load_model`: normalize the GPU id, look up the
model, check conflicts, pick the port, start the adapter and wait for
readiness (oracle), then insert the instance and register the process.
Every failure raises a `LifecycleError` and leaves the state unchanged. -/
def load_model (env : MgrEnv) (S : MgrState) (model_id : String)
    (gpu_id : GpuId) (o : LoadOracle) :
    MgrState × Except LifecycleError LoadModelResponse :=
  match normalize_gpu_id gpu_id with
  | .error e => (S, .error e)
  | .ok normalized_gpu_id =>
    match get_model env.models model_id with
    | none => (S, .error (.modelNotFound model_id))
    | some model_config =>
      match check_gpu_conflicts (.str normalized_gpu_id) S.gpu_instances with
      | .error e => (S, .error e)
      | .ok _ =>
        match get_port_for_gpu env.gpu_ports (.str normalized_gpu_id) with
        | .error e => (S, .error e)
        | .ok port =>
          if ¬o.start_ok then (S, .error .serverStartFailed)
          else if ¬o.ready then (S, .error .serverNotReady)
          else
            let inst : GpuInstance :=
              { gpu_id := normalized_gpu_id, port := port,
                model_id := model_id, model_config := model_config,
                memory_used_mb := o.memory_used,
                memory_total_mb := o.memory_total }
            let instances' := setKey S.gpu_instances normalized_gpu_id inst
            let registry' :=
              match o.pid with
              | some pid =>
                registry_register S.registry normalized_gpu_id
                  { pid := pid, model_id := model_id,
                    model_name := model_config.name,
                    model_path := model_config.path, port := port,
                    command_line :=
                      [env.executable_path, "-m", model_config.path,
                       "--host", env.default_host, "--port", toString port] }
              | none => S.registry
            ({ gpu_instances := instances', registry := registry' },
             .ok { success := true, model_id := model_id })

/-- The adapter-side effect observed during one `unload_model` call. -/
structure UnloadOracle where
  /-- `instance.adapter.stop_server(graceful=True, timeout=30)`. -/
  stop_ok : Bool := true
  deriving DecidableEq, Repr

/-- `ModelLifecycleManager.unload_model`: no-op success when the key has
no instance; otherwise stop the adapter, and only on success remove the
registry entry and the instance.  A failed stop raises and leaves both
maps untouched. -/
def unload_model (S : MgrState) (gpu_id : GpuId) (o : UnloadOracle) :
    MgrState × Except LifecycleError UnloadModelResponse :=
  match normalize_gpu_id gpu_id with
  | .error e => (S, .error e)
  | .ok normalized_gpu_id =>
    match lookupKey S.gpu_instances normalized_gpu_id with
    | none =>
      (S, .ok { success := true,
                message := "No model loaded on GPU " ++ normalized_gpu_id })
    | some inst =>
      if o.stop_ok then
        ({ gpu_instances := eraseKey S.gpu_instances normalized_gpu_id,
           registry := eraseKey S.registry normalized_gpu_id },
         .ok { success := true,
               message := "Model " ++ inst.model_id ++
                 " unloaded from GPU " ++ normalized_gpu_id })
      else (S, .error (.unloadFailed normalized_gpu_id))

/-! ## Specification-side definitions

Definitions transcribed from the specification's wording, used to compare
the code's behaviour against the claims. -/

/-- The per-entry rendering stated by the specification: a null value is
a bare flag, a list value repeats the flag once per element, a scalar
value is flag then value.  (No special case for an empty list.) -/
def renderParamClaim (key : String) (value : CliVal) : List String :=
  match value with
  | .null => [dashFlag key]
  | .list vs => vs.flatMap (fun item => [dashFlag key, item.pyStr])
  | .prim v => [dashFlag key, v.pyStr]

/-- The whole-mapping rendering stated by the specification: each entry
in order contributes its own flags. -/
def claim_cli_arguments (p : ModelParameters) : List String :=
  p.cli_params.flatMap (fun kv => renderParamClaim kv.1 kv.2)

/-- The per-entry rendering with the amendment the code forces: an
empty-list value renders as a bare boolean flag, exactly like null. -/
def renderParamAmended (key : String) (value : CliVal) : List String :=
  match value with
  | .null => [dashFlag key]
  | .list [] => [dashFlag key]
  | .list vs => vs.flatMap (fun item => [dashFlag key, item.pyStr])
  | .prim v => [dashFlag key, v.pyStr]

/-- The resource-exclusivity invariant on the active-instance map: the id
sets of any two distinct entries' keys are disjoint. -/
def DisjointKeys (insts : List (String × GpuInstance)) : Prop :=
  insts.Pairwise (fun p q => ∀ lp lq,
    validate_and_parse_gpu_id (.str p.1) = .ok lp →
    validate_and_parse_gpu_id (.str q.1) = .ok lq →
    ∀ x ∈ lp, x ∉ lq)

/-- Every key of the active-instance map parses as a valid resource
spec. -/
def KeysValid (insts : List (String × GpuInstance)) : Prop :=
  ∀ p ∈ insts, ∃ lk, validate_and_parse_gpu_id (.str p.1) = .ok lk

/-! ## Sample data for concrete instantiations -/

/-- A sample model configuration. -/
def sampleModel : ModelConfig :=
  { id := "m1", name := "Model One", path := "/models/m1.gguf" }

/-- A sample live instance owning GPU 0. -/
def sampleInstance : GpuInstance :=
  { gpu_id := "0", port := 8081, model_id := "m1", model_config := sampleModel }

/-- A sample registry record for GPU 0. -/
def sampleRecord : ProcessRecord :=
  { pid := 7, model_id := "m1", model_name := "Model One",
    model_path := "/models/m1.gguf", port := 8081, command_line := [] }

/-- A sample manager state with `sampleInstance` active on key `"0"`. -/
def sampleState : MgrState :=
  { gpu_instances := [("0", sampleInstance)],
    registry := [("0", sampleRecord)] }

/-- A sample manager environment knowing `sampleModel`. -/
def sampleEnv : MgrEnv := { models := [sampleModel] }

/-! # Lemmas and theorems -/

/-! ### Basic facts about validation results -/

theorem parsePieces_length {ps : List (List Char)} {ns : List Int}
    (h : parsePieces ps = some ns) : ns.length = ps.length := by
  induction ps generalizing ns with
  | nil => simp [parsePieces] at h; simp [← h]
  | cons p ps ih =>
    simp only [parsePieces] at h
    cases hp : parsePyInt (pyStrip p) with
    | none => rw [hp] at h; exact absurd h (by simp)
    | some n =>
      cases hps : parsePieces ps with
      | none => rw [hp, hps] at h; exact absurd h (by simp)
      | some ms =>
        rw [hp, hps] at h
        cases h
        simp [ih hps]

theorem validate_ok_props {g : GpuId} {l : List Int}
    (h : validate_and_parse_gpu_id g = .ok l) :
    l.Sorted (· ≤ ·) ∧ l.Nodup ∧ (∀ x ∈ l, 0 ≤ x ∧ x ≤ 7) ∧ l ≠ [] := by
  simp only [validate_and_parse_gpu_id] at h
  split at h
  · exact absurd h (by simp)
  · rename_i ids hp
    split_ifs at h with hrange hnd
    · simp only [Except.ok.injEq] at h
      have hl : l = ids.insertionSort (· ≤ ·) := h.symm
      have hperm : l.Perm ids := hl ▸ List.perm_insertionSort _ ids
      refine ⟨hl ▸ List.sorted_insertionSort _ ids, hperm.nodup_iff.mpr hnd, ?_, ?_⟩
      · intro x hx
        have hxids : x ∈ ids := hperm.mem_iff.mp hx
        have hx' : ¬(decide (x < 0) || decide (x > 7)) = true := by
          intro hxx
          exact hrange (List.any_eq_true.mpr ⟨x, hxids, hxx⟩)
        simp only [Bool.or_eq_true, decide_eq_true_eq, not_or] at hx'
        omega
      · intro hnil
        have h1 : ids.length = (pySplitComma (if g.toStr = "both" then "0,1" else g.toStr)).length :=
          parsePieces_length hp
        have h2 : ids.length = 0 := by
          rw [← hperm.length_eq, hnil]; rfl
        have h4 : pySplitComma (if g.toStr = "both" then "0,1" else g.toStr) ≠ [] :=
          List.splitOnP_ne_nil (fun c => c == ',')
            (if g.toStr = "both" then "0,1" else g.toStr).toList
        rw [h2] at h1
        exact h4 (List.length_eq_zero.mp h1.symm)

/-- For an id in the valid range `[0, 7]`, `str(id)` is a single digit
character that strips to itself and parses back to the same id. -/
theorem digit_repr {n : Int} (h0 : 0 ≤ n) (h7 : n ≤ 7) :
    ∃ d, (toString n).toList = [d] ∧ d.isDigit = true ∧
      parsePyInt (pyStrip [d]) = some n := by
  interval_cases n
  · exact ⟨'0', by decide, by decide, by decide⟩
  · exact ⟨'1', by decide, by decide, by decide⟩
  · exact ⟨'2', by decide, by decide, by decide⟩
  · exact ⟨'3', by decide, by decide, by decide⟩
  · exact ⟨'4', by decide, by decide, by decide⟩
  · exact ⟨'5', by decide, by decide, by decide⟩
  · exact ⟨'6', by decide, by decide, by decide⟩
  · exact ⟨'7', by decide, by decide, by decide⟩

/-- Splitting the comma-join of single-digit id strings recovers the
pieces. -/
theorem split_join {l : List Int} (hne : l ≠ [])
    (hb : ∀ x ∈ l, 0 ≤ x ∧ x ≤ 7) :
    pySplitComma (pyJoinComma (l.map toString)) =
      l.map (fun n => (toString n).toList) := by
  have hmk : (pyJoinComma (l.map toString)).toList =
      [','].intercalate ((l.map toString).map String.toList) := rfl
  show List.splitOn ',' (pyJoinComma (l.map toString)).toList = _
  rw [hmk, List.map_map]
  have hmm : (l.map (String.toList ∘ toString)) = l.map (fun n => (toString n).toList) := rfl
  rw [hmm]
  apply List.splitOn_intercalate
  · intro piece hpc
    obtain ⟨n, hn, rfl⟩ := List.mem_map.mp hpc
    obtain ⟨d, hd, hdig, _⟩ := digit_repr (hb n hn).1 (hb n hn).2
    rw [hd]
    intro hmem
    have : d = ',' := by
      rcases List.mem_singleton.mp hmem with h
      exact h.symm
    rw [this] at hdig
    exact absurd hdig (by decide)
  · simpa using hne

/-- Parsing the single-digit pieces of a valid id list recovers the list. -/
theorem parsePieces_digits {l : List Int} (hb : ∀ x ∈ l, 0 ≤ x ∧ x ≤ 7) :
    parsePieces (l.map (fun n => (toString n).toList)) = some l := by
  induction l with
  | nil => rfl
  | cons n ns ih =>
    obtain ⟨d, hd, _, hparse⟩ := digit_repr (hb n (by simp)).1 (hb n (by simp)).2
    simp only [List.map_cons, parsePieces, hd, hparse,
      ih (fun x hx => hb x (by simp [hx]))]

/-- The comma-join of a nonempty valid id list is never the literal
`"both"`: its first character is a digit. -/
theorem joined_ne_both {l : List Int} (hne : l ≠ [])
    (hb : ∀ x ∈ l, 0 ≤ x ∧ x ≤ 7) :
    pyJoinComma (l.map toString) ≠ "both" := by
  intro heq
  have htl : (pyJoinComma (l.map toString)).toList = "both".toList := by rw [heq]
  cases l with
  | nil => exact hne rfl
  | cons n ns =>
    obtain ⟨d, hd, hdig, _⟩ := digit_repr (hb n (by simp)).1 (hb n (by simp)).2
    have hhead : (pyJoinComma ((n :: ns).map toString)).toList =
        [','].intercalate (((n :: ns).map toString).map String.toList) := rfl
    rw [hhead] at htl
    cases ns with
    | nil =>
      simp only [List.map_cons, List.map_nil, List.intercalate, List.intersperse,
        List.flatten, List.append_nil, hd] at htl
      have := congrArg List.length htl
      simp at this
    | cons m ms =>
      simp only [List.map_cons, List.intercalate, List.intersperse,
        List.flatten, hd] at htl
      have hdb : d = 'b' := by
        have := congrArg List.head? htl
        simpa using this
      rw [hdb] at hdig
      exact absurd hdig (by decide)

/-- Re-validating a normalized key returns the same sorted id list. -/
theorem validate_normalized {l : List Int} (hs : l.Sorted (· ≤ ·))
    (hnd : l.Nodup) (hb : ∀ x ∈ l, 0 ≤ x ∧ x ≤ 7) (hne : l ≠ []) :
    validate_and_parse_gpu_id (.str (pyJoinComma (l.map toString))) = .ok l := by
  have hrange : l.any (fun gid => decide (gid < 0) || decide (gid > 7)) = false := by
    rw [List.any_eq_false]
    intro x hx
    have := hb x hx
    simp only [Bool.or_eq_true, decide_eq_true_eq]
    omega
  simp only [validate_and_parse_gpu_id, GpuId.toStr,
    if_neg (joined_ne_both hne hb), split_join hne hb, parsePieces_digits hb,
    hrange, Bool.false_eq_true, if_false, if_pos hnd, hs.insertionSort_eq]

/-- Normalization is idempotent on its own output. -/
theorem normalize_idempotent {g : GpuId} {s : String}
    (h : normalize_gpu_id g = .ok s) :
    normalize_gpu_id (.str s) = .ok s := by
  unfold normalize_gpu_id at h ⊢
  cases hv : validate_and_parse_gpu_id g with
  | error e => rw [hv] at h; exact absurd h (by simp [Except.map])
  | ok l =>
    rw [hv] at h
    simp only [Except.map] at h
    cases h
    obtain ⟨hs, hnd, hb, hne⟩ := validate_ok_props hv
    rw [validate_normalized hs hnd hb hne]
    rfl

/-- The head of a sorted validated list is its minimum. -/
theorem validate_head_min {g : GpuId} {l : List Int}
    (h : validate_and_parse_gpu_id g = .ok l) :
    ∃ p rest, l = p :: rest ∧ ∀ x ∈ l, p ≤ x := by
  obtain ⟨hs, _, _, hne⟩ := validate_ok_props h
  cases l with
  | nil => exact absurd rfl hne
  | cons p rest =>
    refine ⟨p, rest, rfl, ?_⟩
    intro x hx
    rcases List.mem_cons.mp hx with rfl | hx'
    · exact le_refl x
    · exact (List.sorted_cons.mp hs).1 x hx'

/-! ### Claim C3: normalization is canonical -/

/-- C3: `normalize("both") == normalize("0,1")`, `normalize(0) ==
normalize("0")`, `normalize("1,0") == "0,1"`; in general the normalized
form of a valid spec is the sorted, comma-joined canonical string of its
integer set, and normalizing an already-normalized key returns it
unchanged. -/
theorem normalization_canonical :
    (normalize_gpu_id (.str "both") = normalize_gpu_id (.str "0,1")) ∧
    (normalize_gpu_id (.int 0) = normalize_gpu_id (.str "0")) ∧
    (normalize_gpu_id (.str "1,0") = .ok "0,1") ∧
    (∀ g l, validate_and_parse_gpu_id g = .ok l →
      normalize_gpu_id g = .ok (pyJoinComma (l.map toString)) ∧
      l.Sorted (· < ·) ∧ l.Nodup) ∧
    (∀ g s, normalize_gpu_id g = .ok s → normalize_gpu_id (.str s) = .ok s) := by
  refine ⟨rfl, rfl, rfl, ?_, fun g s h => normalize_idempotent h⟩
  intro g l h
  obtain ⟨hs, hnd, _, _⟩ := validate_ok_props h
  refine ⟨?_, hs.lt_of_le hnd, hnd⟩
  unfold normalize_gpu_id
  rw [h]
  rfl

/-- Witness for C3 at the concrete spec `"1,0"`. -/
theorem normalization_canonical_witness :
    normalize_gpu_id (.str "1,0") = .ok (pyJoinComma ([(0 : Int), 1].map toString)) ∧
    List.Sorted (· < ·) [(0 : Int), 1] ∧ [(0 : Int), 1].Nodup :=
  normalization_canonical.2.2.2.1 (.str "1,0") [0, 1] (by rfl)

/-! ### Claim C4: deterministic port assignment by smallest index -/

/-- C4: the assigned port is a pure function of the smallest id in the
validated set — the configured `gpu0`/`gpu1` ports for primary index 0
and 1 and `8081 + 7 * p` for a higher primary index `p`; any two specs
with the same smallest id receive the same port, and `port_for("0")` and
`port_for("0,2")` both resolve to the GPU-0 port. -/
theorem port_assignment (ports : GpuPortsConfig) :
    (∀ g l p rest, validate_and_parse_gpu_id g = .ok l → l = p :: rest →
      (∀ x ∈ l, p ≤ x) ∧
      get_port_for_gpu ports g =
        .ok (if p = 0 then ports.gpu0
             else if p = 1 then ports.gpu1
             else 8081 + p * 7)) ∧
    (∀ g g' l l' p rest rest',
      validate_and_parse_gpu_id g = .ok l →
      validate_and_parse_gpu_id g' = .ok l' →
      l = p :: rest → l' = p :: rest' →
      get_port_for_gpu ports g = get_port_for_gpu ports g') ∧
    get_port_for_gpu ports (.str "0") = .ok ports.gpu0 ∧
    get_port_for_gpu ports (.str "0,2") = .ok ports.gpu0 := by
  have hmain : ∀ g l p rest, validate_and_parse_gpu_id g = .ok l → l = p :: rest →
      (∀ x ∈ l, p ≤ x) ∧
      get_port_for_gpu ports g =
        .ok (if p = 0 then ports.gpu0
             else if p = 1 then ports.gpu1
             else 8081 + p * 7) := by
    intro g l p rest h hcons
    subst hcons
    constructor
    · obtain ⟨p', rest', heq, hmin⟩ := validate_head_min h
      obtain ⟨rfl, rfl⟩ : p' = p ∧ rest' = rest := by
        exact ⟨(List.cons.injEq .. ▸ heq).1.symm, (List.cons.injEq .. ▸ heq).2.symm⟩
      exact hmin
    · simp only [get_port_for_gpu, h]
      split_ifs <;> rfl
  refine ⟨hmain, ?_, rfl, rfl⟩
  intro g g' l l' p rest rest' h h' hc hc'
  have e1 := (hmain g l p rest h hc).2
  have e2 := (hmain g' l' p rest' h' hc').2
  rw [e1, e2]

/-- Witness for C4 at the concrete ports default and specs `"2,3"`,
`"0"`, `"0,2"`. -/
theorem port_assignment_witness :
    ((∀ x ∈ [(2 : Int), 3], 2 ≤ x) ∧
      get_port_for_gpu {} (.str "2,3") =
        .ok (if (2 : Int) = 0 then ({} : GpuPortsConfig).gpu0
             else if (2 : Int) = 1 then ({} : GpuPortsConfig).gpu1
             else 8081 + 2 * 7)) ∧
    get_port_for_gpu {} (.str "0") = get_port_for_gpu {} (.str "0,2") :=
  ⟨(port_assignment {}).1 (.str "2,3") [2, 3] 2 [3] (by rfl) rfl,
   (port_assignment {}).2.1 (.str "0") (.str "0,2") [0] [0, 2] 0 [] [2]
     (by rfl) (by rfl) rfl rfl⟩

/-! ### Claim C2: the strict-threshold classification rule -/

/-- C2: a detected device is occupied (non-idle) iff its used memory
strictly exceeds the threshold; at exactly the threshold it is idle; one
MiB above the threshold it is `model_loaded` with selection enabled when
a model mapping exists, and `occupied_by_others` with selection disabled
when none does — and `detect_gpus` classifies every parsed device with
exactly this rule. -/
theorem detector_threshold_classification :
    (∀ thr mapping procs gpu,
      (classify_gpu thr mapping procs gpu).state ≠ GpuState.idle ↔
        gpu.memory_used > thr) ∧
    (∀ thr mapping procs gpu, gpu.memory_used = thr →
      (classify_gpu thr mapping procs gpu).state = GpuState.idle) ∧
    (∀ thr mapping procs gpu m, gpu.memory_used = thr + 1 →
      mapping gpu.index = some m →
      (classify_gpu thr mapping procs gpu).state = GpuState.model_loaded ∧
      (classify_gpu thr mapping procs gpu).select_enabled = true) ∧
    (∀ thr mapping procs gpu, gpu.memory_used = thr + 1 →
      mapping gpu.index = none →
      (classify_gpu thr mapping procs gpu).state = GpuState.occupied_by_others ∧
      (classify_gpu thr mapping procs gpu).select_enabled = false) ∧
    (∀ r s thr mapping, run_nvidia_smi r = .ok s → parse_gpu_info s ≠ [] →
      detect_gpus r thr mapping =
        (parse_gpu_info s).map
          (classify_gpu thr mapping (parse_gpu_processes s))) := by
  refine ⟨?_, ?_, ?_, ?_, ?_⟩
  · intro thr mapping procs gpu
    unfold classify_gpu
    by_cases hgt : gpu.memory_used > thr
    · rw [if_pos hgt]
      cases mapping gpu.index <;> simp [hgt]
    · rw [if_neg hgt]
      simp [hgt]
  · intro thr mapping procs gpu heq
    unfold classify_gpu
    rw [if_neg (by omega)]
  · intro thr mapping procs gpu m heq hmap
    unfold classify_gpu
    rw [if_pos (by omega), hmap]
    exact ⟨rfl, rfl⟩
  · intro thr mapping procs gpu heq hmap
    unfold classify_gpu
    rw [if_pos (by omega), hmap]
    exact ⟨rfl, rfl⟩
  · intro r s thr mapping hrun hne
    cases r with
    | output s' =>
      obtain rfl : s' = s := by simpa [run_nvidia_smi] using hrun
      simp only [detect_gpus, run_nvidia_smi, List.isEmpty_iff]
      rw [if_neg hne]
    | procError => exact absurd hrun (by simp [run_nvidia_smi])
    | timeout => exact absurd hrun (by simp [run_nvidia_smi])
    | notFound => exact absurd hrun (by simp [run_nvidia_smi])
    | mockNoPath => exact absurd hrun (by simp [run_nvidia_smi])
    | mockMissing => exact absurd hrun (by simp [run_nvidia_smi])
    | mockReadError => exact absurd hrun (by simp [run_nvidia_smi])

/-- Witness for C2 at threshold 30 on a device with 31 MiB used. -/
theorem detector_threshold_classification_witness :
    ((classify_gpu 30 (fun i => if i = 0 then some "m" else none) []
        { index := 0, memory_used := 31, memory_total := 1000 }).state =
      GpuState.model_loaded ∧
     (classify_gpu 30 (fun i => if i = 0 then some "m" else none) []
        { index := 0, memory_used := 31, memory_total := 1000 }).select_enabled = true) ∧
    (classify_gpu 30 (fun _ => none) []
        { index := 0, memory_used := 30, memory_total := 1000 }).state = GpuState.idle :=
  ⟨detector_threshold_classification.2.2.1
      30 (fun i => if i = 0 then some "m" else none) []
      { index := 0, memory_used := 31, memory_total := 1000 } "m" rfl (by decide),
   detector_threshold_classification.2.1 30 (fun _ => none) []
      { index := 0, memory_used := 30, memory_total := 1000 } rfl⟩

/-! ### Claim C5: detection failures degrade to the CPU fallback -/

/-- C5: on every monitoring failure (missing binary, non-zero exit,
timeout, unreadable or missing mock file) and on output that parses to no
devices, `detect_gpus` returns — instead of raising — exactly one
synthetic CPU record with index `-1`, zero memory and state `idle`. -/
theorem detector_cpu_fallback :
    (∀ r e thr mapping, run_nvidia_smi r = .error e →
      detect_gpus r thr mapping = cpu_fallback) ∧
    (∀ s thr mapping, parse_gpu_info s = [] →
      detect_gpus (.output s) thr mapping = cpu_fallback) ∧
    cpu_fallback =
      [{ index := -1, state := GpuState.idle, model_name := none,
         process_info := none, select_enabled := true,
         memory_used := 0, memory_total := 0 }] := by
  refine ⟨?_, ?_, rfl⟩
  · intro r e thr mapping hrun
    unfold detect_gpus
    rw [hrun]
  · intro s thr mapping hparse
    simp only [detect_gpus, run_nvidia_smi, hparse, List.isEmpty_nil, if_true]

/-- Witness for C5 at a timeout and at unparseable output. -/
theorem detector_cpu_fallback_witness :
    detect_gpus .timeout 30 (fun _ => none) = cpu_fallback ∧
    detect_gpus (.output "no gpus here") 30 (fun _ => none) = cpu_fallback :=
  ⟨detector_cpu_fallback.1 .timeout "nvidia-smi command timed out" 30
      (fun _ => none) rfl,
   detector_cpu_fallback.2.1 "no gpus here" 30 (fun _ => none) (by rfl)⟩

/-! ### Claim C6: crash handling (corrected)

The claim says crash handling waits `min(2 ** restart_count, 60)`
seconds, *increments the attempt counter* and *relaunches* the subprocess
with the stored model path and parameters.  `_handle_crash` does wait the
stated backoff and does transition to terminal `error` once
`restart_count` reaches the maximum, but it never increments the counter
and never relaunches: auto-restart is not implemented (the method only
logs "Auto-restart not fully implemented"), and `start_server` stores no
model path or parameters for a relaunch. -/

/-- C6 counterexample: with auto-restart configured (`restart_on_crash`,
3 attempts allowed) and `restart_count = 0`, the crash path waits the
stated 1 second but leaves the counter at 0 (no increment) and launches
nothing. -/
theorem crash_restart_counterexample :
    (monitor_handle_exit { restart_on_crash := true, max_restart_attempts := 3 } 0).waited
        = some (min (2 ^ 0) 60) ∧
    (monitor_handle_exit { restart_on_crash := true, max_restart_attempts := 3 } 0).relaunched
        = false ∧
    (monitor_handle_exit { restart_on_crash := true, max_restart_attempts := 3 } 0).restart_count
        ≠ 0 + 1 := by
  refine ⟨rfl, rfl, by decide⟩

/-- C6 amended: when auto-restart is configured and attempts remain, the
crash path waits `min(2 ** restart_count, 60)` seconds but neither
increments the counter nor relaunches, leaving the status `crashed`; once
the budget is exhausted it transitions to terminal `error` without
waiting. -/
theorem crash_handling_amended (config : CrashConfig) (restart_count : Nat)
    (hauto : config.restart_on_crash = true) :
    (restart_count < config.max_restart_attempts →
      monitor_handle_exit config restart_count =
        { status := .crashed, restart_count := restart_count,
          waited := some (min (2 ^ restart_count) 60), relaunched := false }) ∧
    (config.max_restart_attempts ≤ restart_count →
      monitor_handle_exit config restart_count =
        { status := .error, restart_count := restart_count,
          waited := none, relaunched := false }) := by
  constructor
  · intro hlt
    simp only [monitor_handle_exit, handle_crash, hauto, if_true]
    rw [if_neg (by omega)]
  · intro hge
    simp only [monitor_handle_exit, handle_crash, hauto, if_true]
    rw [if_pos (by omega)]

/-- Witness for the amended C6 with 3 attempts allowed, at counters 2
and 5. -/
theorem crash_handling_amended_witness :
    (monitor_handle_exit { restart_on_crash := true, max_restart_attempts := 3 } 2 =
      { status := .crashed, restart_count := 2,
        waited := some (min (2 ^ 2) 60), relaunched := false }) ∧
    (monitor_handle_exit { restart_on_crash := true, max_restart_attempts := 3 } 5 =
      { status := .error, restart_count := 5,
        waited := none, relaunched := false }) :=
  ⟨(crash_handling_amended { restart_on_crash := true, max_restart_attempts := 3 } 2
      rfl).1 (by decide),
   (crash_handling_amended { restart_on_crash := true, max_restart_attempts := 3 } 5
      rfl).2 (by decide)⟩

/-! ### Claim C8: CLI-argument rendering (corrected)

The claim's rendering rule is right for null, scalar and nonempty-list
values, but the code renders an empty-list value as a bare boolean flag
— not as zero flag repetitions, as "repeats the flag once per element"
dictates. -/

theorem foldl_append_eq_flatMap {α β : Type} (f : α → List β) :
    ∀ (l : List α) (acc : List β),
      l.foldl (fun a x => a ++ f x) acc = acc ++ l.flatMap f := by
  intro l
  induction l with
  | nil => intro acc; simp
  | cons x xs ih =>
    intro acc
    simp only [List.foldl_cons, List.flatMap_cons, ih, List.append_assoc]

theorem renderParam_eq_amended (key : String) (value : CliVal) :
    renderParam key value = renderParamAmended key value := by
  cases value with
  | null => rfl
  | prim v => rfl
  | list vs =>
    cases vs with
    | nil => rfl
    | cons v vs => rfl

/-- C8 counterexample: the mapping `{"x": []}` renders as the bare flag
`["--x"]`, while the claimed once-per-element rule yields no arguments at
all. -/
theorem cli_arguments_counterexample :
    get_cli_arguments { cli_params := [("x", .list [])] } = ["--x"] ∧
    claim_cli_arguments { cli_params := [("x", .list [])] } = [] ∧
    get_cli_arguments { cli_params := [("x", .list [])] } ≠
      claim_cli_arguments { cli_params := [("x", .list [])] } := by
  refine ⟨rfl, rfl, by decide⟩

/-- C8 amended: with no deprecated structured fields set, every
`cli_params` entry contributes, in order, one single-dash flag if its key
is in the short-form table and a double-dash flag otherwise — bare for a
null value *or an empty list*, repeated per element for a nonempty list,
and flag-then-string-value for a scalar. -/
theorem cli_arguments_rendering (p : ModelParameters)
    (h1 : p.n_ctx = none) (h2 : p.n_gpu_layers = none)
    (h3 : p.n_threads = none) (h4 : p.temperature = none)
    (h5 : p.top_p = none) (h6 : p.top_k = none)
    (h7 : p.repeat_penalty = none) :
    get_cli_arguments p =
      p.cli_params.flatMap (fun kv => renderParamAmended kv.1 kv.2) := by
  unfold get_cli_arguments
  rw [h1, h2, h3, h4, h5, h6, h7]
  simp only [appendDeprecated]
  rw [foldl_append_eq_flatMap (fun kv => renderParam kv.1 kv.2) p.cli_params []]
  simp only [List.nil_append]
  congr 1
  funext kv
  exact renderParam_eq_amended kv.1 kv.2

/-- Witness for the amended C8 on a mapping exercising all four value
shapes and the short-form table. -/
theorem cli_arguments_rendering_witness :
    get_cli_arguments
        { cli_params := [("c", .prim (.int 24000)), ("context-shift", .null),
                         ("lora", .list [.str "a.bin", .str "b.bin"]),
                         ("x", .list [])] } =
      ([("c", CliVal.prim (.int 24000)), ("context-shift", CliVal.null),
        ("lora", CliVal.list [.str "a.bin", .str "b.bin"]),
        ("x", CliVal.list [])] :
          List (String × CliVal)).flatMap
        (fun kv => renderParamAmended kv.1 kv.2) :=
  cli_arguments_rendering
    { cli_params := [("c", .prim (.int 24000)), ("context-shift", .null),
                     ("lora", .list [.str "a.bin", .str "b.bin"]),
                     ("x", .list [])] }
    rfl rfl rfl rfl rfl rfl rfl

/-! ### Claim C9: the bounded log ring buffer (corrected)

The 300-line FIFO window is exactly as claimed, but `get_logs` is the
Python slice `list(buffer)[-n:]`, and `[-0:]` is the *whole* list: at
`n = 0` the code returns the entire buffer (up to 300 lines), not
`min(0, 300) = 0` lines. -/

set_option maxRecDepth 4096 in
theorem foldl_pushLog (lines : List String) :
    ∀ buf : List String, buf.length ≤ LOG_CAPACITY →
      lines.foldl pushLog buf =
        (buf ++ lines).drop ((buf.length + lines.length) - LOG_CAPACITY) := by
  induction lines with
  | nil =>
    intro buf hb
    simp [Nat.sub_eq_zero_of_le hb]
  | cons l ls ih =>
    intro buf hb
    simp only [List.foldl_cons]
    by_cases hfull : buf.length + 1 > LOG_CAPACITY
    · have hlen : buf.length = LOG_CAPACITY := by omega
      have hpush : pushLog buf l = (buf ++ [l]).drop 1 := by
        simp only [pushLog, List.length_append, List.length_singleton]
        rw [if_pos hfull]
        congr 1
        omega
      have hlen1 : (pushLog buf l).length = LOG_CAPACITY := by
        rw [hpush, List.length_drop, List.length_append, List.length_singleton]
        omega
      rw [ih (pushLog buf l) (le_of_eq hlen1), hlen1, hpush]
      have hidx1 : LOG_CAPACITY + ls.length - LOG_CAPACITY = ls.length := by omega
      have hidx2 : buf.length + (l :: ls).length - LOG_CAPACITY = 1 + ls.length := by
        simp only [List.length_cons]
        omega
      rw [hidx1, hidx2, ← List.drop_drop]
      have hsplit : buf ++ l :: ls = (buf ++ [l]) ++ ls := by simp
      rw [hsplit]
      have hD : List.drop 1 ((buf ++ [l]) ++ ls) = List.drop 1 (buf ++ [l]) ++ ls :=
        List.drop_append_of_le_length (by simp)
      rw [hD]
    · have hpush : pushLog buf l = buf ++ [l] := by
        simp only [pushLog, List.length_append, List.length_singleton]
        rw [if_neg hfull]
      have hlen1 : (pushLog buf l).length = buf.length + 1 := by
        rw [hpush, List.length_append, List.length_singleton]
      rw [ih (pushLog buf l) (by omega), hlen1, hpush]
      have hsplit : (buf ++ [l]) ++ ls = buf ++ l :: ls := by simp
      rw [hsplit]
      congr 1
      simp only [List.length_cons]
      omega

/-- C9 counterexample: after appending one line, `get_logs 0` returns
that line — the whole buffer — whereas the claimed
most-recent-`min(n, 300)` rule yields no lines at `n = 0`. -/
theorem get_logs_zero_counterexample :
    get_logs (runLog ["line1"]) 0 = ["line1"] ∧
    ["line1"].drop (["line1"].length - min 0 LOG_CAPACITY) = [] ∧
    get_logs (runLog ["line1"]) 0 ≠
      ["line1"].drop (["line1"].length - min 0 LOG_CAPACITY) := by
  refine ⟨rfl, rfl, by decide⟩

/-- C9 amended: under any sequence of appended lines the buffer holds at
most 300 lines — exactly the most recent 300, in arrival order (the
oldest are the ones dropped) — and for every `n ≥ 1`, `get_logs n`
returns the most recent `min(n, 300)` lines in arrival order.  (At
`n = 0` the code returns the whole buffer instead.) -/
theorem log_buffer_window (lines : List String) :
    (runLog lines).length ≤ 300 ∧
    runLog lines = lines.drop (lines.length - 300) ∧
    (∀ n, 1 ≤ n →
      get_logs (runLog lines) n = lines.drop (lines.length - min n 300)) := by
  have hbuf : runLog lines = lines.drop (lines.length - LOG_CAPACITY) := by
    unfold runLog
    rw [foldl_pushLog lines [] (by simp [LOG_CAPACITY])]
    simp
  have hlen : (runLog lines).length = lines.length - (lines.length - LOG_CAPACITY) := by
    rw [hbuf, List.length_drop]
  refine ⟨?_, hbuf, ?_⟩
  · rw [hlen]
    have : LOG_CAPACITY = 300 := rfl
    omega
  · intro n hn
    unfold get_logs
    rw [if_neg (by omega), hbuf, List.length_drop, List.drop_drop]
    congr 1
    have : LOG_CAPACITY = 300 := rfl
    omega

/-- Witness for the amended C9 on a 302-line sequence and `n = 2`. -/
theorem log_buffer_window_witness :
    (runLog (List.replicate 302 "x")).length ≤ 300 ∧
    runLog (List.replicate 302 "x") =
      (List.replicate 302 "x").drop ((List.replicate 302 "x").length - 300) ∧
    get_logs (runLog (List.replicate 302 "x")) 2 =
      (List.replicate 302 "x").drop ((List.replicate 302 "x").length - min 2 300) :=
  ⟨(log_buffer_window (List.replicate 302 "x")).1,
   (log_buffer_window (List.replicate 302 "x")).2.1,
   (log_buffer_window (List.replicate 302 "x")).2.2 2 (by decide)⟩

/-! ### Association-list facts -/

theorem lookupKey_erase {α : Type} (l : List (String × α)) (k : String) :
    lookupKey (eraseKey l k) k = none := by
  have hfind : List.find? (fun kv => kv.1 = k) (eraseKey l k) = none := by
    rw [List.find?_eq_none]
    intro x hx
    have h2 : ¬x.1 = k := by
      have hmem : x ∈ l ∧ ¬x.1 = k := by
        simpa [eraseKey, List.mem_filter] using hx
      exact hmem.2
    simp [h2]
  unfold lookupKey
  rw [hfind]
  rfl

theorem setKey_eq_append {α : Type} {l : List (String × α)} {k : String}
    (h : ∀ p ∈ l, p.1 ≠ k) (v : α) : setKey l k v = l ++ [(k, v)] := by
  induction l with
  | nil => rfl
  | cons q rest ih =>
    obtain ⟨k0, v0⟩ := q
    have hne : k0 ≠ k := h (k0, v0) (by simp)
    simp only [setKey, if_neg hne, List.cons_append, List.cons.injEq, true_and]
    exact ih (fun p hp => h p (by simp [hp]))

/-! ### Claim C7: unload is idempotent -/

/-- C7: unloading a resource key with no active instance is a successful
no-op that leaves the state untouched, and after any successful unload an
immediate second unload of the same key also succeeds (and changes
nothing). -/
theorem unload_idempotent :
    (∀ S g k o, normalize_gpu_id g = .ok k →
      lookupKey S.gpu_instances k = none →
      unload_model S g o =
        (S, .ok { success := true,
                  message := "No model loaded on GPU " ++ k })) ∧
    (∀ S g o o' S' r, unload_model S g o = (S', .ok r) →
      r.success = true ∧
      ∃ r', unload_model S' g o' = (S', .ok r') ∧ r'.success = true) := by
  have hnoop : ∀ S g k o, normalize_gpu_id g = .ok k →
      lookupKey S.gpu_instances k = none →
      unload_model S g o =
        (S, .ok { success := true,
                  message := "No model loaded on GPU " ++ k }) := by
    intro S g k o hn hl
    simp only [unload_model, hn, hl]
  refine ⟨hnoop, ?_⟩
  intro S g o o' S' r h
  simp only [unload_model] at h
  split at h
  · simp only [Prod.mk.injEq] at h
    exact absurd h.2 (by simp)
  · rename_i k hn
    split at h
    · rename_i hl
      simp only [Prod.mk.injEq, Except.ok.injEq] at h
      obtain ⟨rfl, rfl⟩ := h
      exact ⟨rfl, _, hnoop S g k o' hn hl, rfl⟩
    · rename_i inst hl
      split_ifs at h with hstop
      · simp only [Prod.mk.injEq, Except.ok.injEq] at h
        obtain ⟨hS', rfl⟩ := h
        refine ⟨rfl, _, hnoop S' g k o' hn ?_, rfl⟩
        rw [← hS']
        exact lookupKey_erase S.gpu_instances k
      · simp only [Prod.mk.injEq] at h
        exact absurd h.2 (by simp)

/-- Witness for C7: unloading the empty state's GPU 1 is a no-op success,
and the successful unload of the sample state's GPU 0 is followed by a
second success. -/
theorem unload_idempotent_witness :
    (unload_model {} (.str "1") {} =
      ({}, .ok { success := true, message := "No model loaded on GPU 1" })) ∧
    (({ success := true, message := "Model m1 unloaded from GPU 0" } :
        UnloadModelResponse).success = true ∧
      ∃ r', unload_model ({} : MgrState) (.str "0") {} =
        (({} : MgrState), .ok r') ∧ r'.success = true) :=
  ⟨unload_idempotent.1 {} (.str "1") "1" {} (by rfl) rfl,
   unload_idempotent.2 sampleState (.str "0") {} {} {}
     { success := true, message := "Model m1 unloaded from GPU 0" }
     (by rfl)⟩

/-! ### Claim C10: a failed stop keeps all bookkeeping -/

/-- C10: when the key has an active instance and the supervisor's
`stop_server` reports failure, `unload_model` raises a `LifecycleError`
and returns the state unchanged — both the active-instance entry and the
registry entry survive. -/
theorem unload_failure_atomic :
    ∀ S g k inst o, normalize_gpu_id g = .ok k →
      lookupKey S.gpu_instances k = some inst →
      o.stop_ok = false →
      unload_model S g o = (S, .error (.unloadFailed k)) ∧
      lookupKey (unload_model S g o).1.gpu_instances k = some inst ∧
      (unload_model S g o).1.registry = S.registry := by
  intro S g k inst o hn hl hstop
  have hmain : unload_model S g o = (S, .error (.unloadFailed k)) := by
    simp only [unload_model, hn, hl, hstop, Bool.false_eq_true, if_false]
  exact ⟨hmain, by rw [hmain]; exact hl, by rw [hmain]⟩

/-- Witness for C10 on the sample state with a failing stop. -/
theorem unload_failure_atomic_witness :
    unload_model sampleState (.str "0") { stop_ok := false } =
      (sampleState, .error (.unloadFailed "0")) ∧
    lookupKey (unload_model sampleState (.str "0") { stop_ok := false }).1.gpu_instances
        "0" = some sampleInstance ∧
    (unload_model sampleState (.str "0") { stop_ok := false }).1.registry =
      sampleState.registry :=
  unload_failure_atomic sampleState (.str "0") "0" sampleInstance
    { stop_ok := false } (by rfl) (by rfl) rfl

/-! ### Conflict checking -/

theorem normalize_ok_inv {g : GpuId} {k : String}
    (h : normalize_gpu_id g = .ok k) :
    ∃ lg, validate_and_parse_gpu_id g = .ok lg ∧
      k = pyJoinComma (lg.map toString) := by
  unfold normalize_gpu_id at h
  cases hv : validate_and_parse_gpu_id g with
  | error e => rw [hv] at h; exact absurd h (by simp [Except.map])
  | ok lg =>
    rw [hv] at h
    simp only [Except.map, Except.ok.injEq] at h
    exact ⟨lg, rfl, h.symm⟩

/-- A successful conflict check means every active key's id set is
disjoint from the requested one. -/
theorem check_go_ok_disjoint (req : List Int) :
    ∀ insts, check_conflicts_go req insts = .ok () →
      ∀ p ∈ insts, ∀ lp, validate_and_parse_gpu_id (.str p.1) = .ok lp →
        ∀ x ∈ req, x ∉ lp := by
  intro insts
  induction insts with
  | nil => intro _ p hp; simp at hp
  | cons q rest ih =>
    obtain ⟨k0, i0⟩ := q
    intro h p hp lp hlp x hx
    simp only [check_conflicts_go] at h
    cases hq : validate_and_parse_gpu_id (.str k0) with
    | error e => rw [hq] at h; exact absurd h (by simp)
    | ok lq =>
      simp only [hq] at h
      by_cases hov : (req.filter (fun g => decide (g ∈ lq))).isEmpty
      · rw [if_pos hov] at h
        rcases List.mem_cons.mp hp with rfl | hrest
        · have hlpq : lp = lq := by
            rw [hlp] at hq
            simpa using hq
          subst hlpq
          intro hxl
          have hmem : x ∈ req.filter (fun g => decide (g ∈ lp)) :=
            List.mem_filter.mpr ⟨hx, by simpa⟩
          rw [List.isEmpty_iff] at hov
          rw [hov] at hmem
          simp at hmem
        · exact ih h p hrest lp hlp x hx
      · rw [if_neg hov] at h; exact absurd h (by simp)

/-- When some active entry's id set meets the requested one (and every
key parses), the conflict-check loop raises a conflict error naming a
nonempty overlap and the owning entry. -/
theorem check_go_conflict_found (req : List Int) :
    ∀ insts,
      (∀ p ∈ insts, ∃ lk, validate_and_parse_gpu_id (.str p.1) = .ok lk) →
      (∃ p ∈ insts, ∃ lk, validate_and_parse_gpu_id (.str p.1) = .ok lk ∧
        ∃ x, x ∈ req ∧ x ∈ lk) →
      ∃ ov k m, check_conflicts_go req insts = .error (.gpuConflict ov k m) ∧
        ov ≠ [] ∧ ∃ inst, (k, inst) ∈ insts ∧ inst.model_id = m := by
  intro insts
  induction insts with
  | nil =>
    intro _ hconf
    obtain ⟨p, hp, _⟩ := hconf
    simp at hp
  | cons q rest ih =>
    obtain ⟨k0, i0⟩ := q
    intro hwf hconf
    obtain ⟨lk0, hk0⟩ := hwf (k0, i0) (by simp)
    simp only [check_conflicts_go, hk0]
    by_cases hov : (req.filter (fun g => decide (g ∈ lk0))).isEmpty
    · rw [if_pos hov]
      have hconf' : ∃ p ∈ rest, ∃ lk,
          validate_and_parse_gpu_id (.str p.1) = .ok lk ∧
          ∃ x, x ∈ req ∧ x ∈ lk := by
        obtain ⟨p, hp, lk, hlk, x, hxr, hxl⟩ := hconf
        rcases List.mem_cons.mp hp with rfl | hrest
        · exfalso
          have hlkq : lk = lk0 := by
            rw [hlk] at hk0
            simpa using hk0
          subst hlkq
          have hmem : x ∈ req.filter (fun g => decide (g ∈ lk)) :=
            List.mem_filter.mpr ⟨hxr, by simpa⟩
          rw [List.isEmpty_iff] at hov
          rw [hov] at hmem
          simp at hmem
        · exact ⟨p, hrest, lk, hlk, x, hxr, hxl⟩
      obtain ⟨ov, k, m, hgo, hne, inst, hmem, hmid⟩ :=
        ih (fun p hp => hwf p (by simp [hp])) hconf'
      exact ⟨ov, k, m, hgo, hne, inst, by simp [hmem], hmid⟩
    · rw [if_neg hov]
      refine ⟨req.filter (fun g => decide (g ∈ lk0)), k0, i0.model_id,
        rfl, ?_, i0, by simp, rfl⟩
      simpa [List.isEmpty_iff] using hov

/-! ### Claim C1: conflicting loads are rejected atomically -/

/-- C1: when the requested spec's id set meets an active instance's set
(the model id being known and every active key well-formed), `load_model`
fails with a `gpuConflict` error naming a nonempty overlap and the owning
key and model, and returns the state unchanged — no entry is added for
the request.  Consequently the exclusivity invariant is preserved: from a
state with pairwise-disjoint, well-formed keys, any `load_model` call
(any outcome) yields a state with pairwise-disjoint, well-formed keys. -/
theorem load_conflict_rejected :
    (∀ env S model_id cfg r2 l2 o,
      get_model env.models model_id = some cfg →
      validate_and_parse_gpu_id r2 = .ok l2 →
      KeysValid S.gpu_instances →
      (∃ p ∈ S.gpu_instances, ∃ lk,
        validate_and_parse_gpu_id (.str p.1) = .ok lk ∧
        ∃ x, x ∈ l2 ∧ x ∈ lk) →
      (load_model env S model_id r2 o).1 = S ∧
      ∃ ov k m,
        (load_model env S model_id r2 o).2 = .error (.gpuConflict ov k m) ∧
        ov ≠ [] ∧
        ∃ inst, (k, inst) ∈ S.gpu_instances ∧ inst.model_id = m) ∧
    (∀ env S model_id g o,
      KeysValid S.gpu_instances →
      DisjointKeys S.gpu_instances →
      KeysValid (load_model env S model_id g o).1.gpu_instances ∧
      DisjointKeys (load_model env S model_id g o).1.gpu_instances) := by
  constructor
  · intro env S model_id cfg r2 l2 o hm hr2 hwf hconf
    obtain ⟨hs, hnd, hb, hne⟩ := validate_ok_props hr2
    have hnorm : normalize_gpu_id r2 = .ok (pyJoinComma (l2.map toString)) := by
      unfold normalize_gpu_id
      rw [hr2]
      rfl
    have hvk : validate_and_parse_gpu_id
        (.str (pyJoinComma (l2.map toString))) = .ok l2 :=
      validate_normalized hs hnd hb hne
    obtain ⟨ov, k, m, hgo, hovne, inst, hmem, hmid⟩ :=
      check_go_conflict_found l2 S.gpu_instances hwf hconf
    have hres : load_model env S model_id r2 o =
        (S, .error (.gpuConflict ov k m)) := by
      simp only [load_model, hnorm, hm, check_gpu_conflicts, hvk, hgo]
    rw [hres]
    exact ⟨rfl, ov, k, m, rfl, hovne, inst, hmem, hmid⟩
  · intro env S model_id g o hwf hdisj
    cases hn : normalize_gpu_id g with
    | error e =>
      have : load_model env S model_id g o = (S, .error e) := by
        simp only [load_model, hn]
      rw [this]
      exact ⟨hwf, hdisj⟩
    | ok k =>
      obtain ⟨lg, hvg, hk⟩ := normalize_ok_inv hn
      obtain ⟨hs, hnd, hb, hne⟩ := validate_ok_props hvg
      have hvk : validate_and_parse_gpu_id (.str k) = .ok lg := by
        rw [hk]
        exact validate_normalized hs hnd hb hne
      cases hgm : get_model env.models model_id with
      | none =>
        have : load_model env S model_id g o = (S, .error (.modelNotFound model_id)) := by
          simp only [load_model, hn, hgm]
        rw [this]
        exact ⟨hwf, hdisj⟩
      | some cfg =>
        cases hc : check_gpu_conflicts (.str k) S.gpu_instances with
        | error e =>
          have : load_model env S model_id g o = (S, .error e) := by
            simp only [load_model, hn, hgm, hc]
          rw [this]
          exact ⟨hwf, hdisj⟩
        | ok u =>
          obtain rfl : u = () := rfl
          have hgo : check_conflicts_go lg S.gpu_instances = .ok () := by
            have := hc
            simp only [check_gpu_conflicts, hvk] at this
            exact this
          have hdisj_req := check_go_ok_disjoint lg S.gpu_instances hgo
          have hfresh : ∀ p ∈ S.gpu_instances, p.1 ≠ k := by
            intro p hp heq
            obtain ⟨lp, hlp⟩ := hwf p hp
            have hlplg : lp = lg := by
              rw [heq] at hlp
              rw [hlp] at hvk
              simpa using hvk
            subst hlplg
            cases lp with
            | nil =>
              have := validate_ok_props hlp
              exact this.2.2.2 rfl
            | cons a rest =>
              exact hdisj_req p hp (a :: rest) hlp a (by simp) (by simp)
          cases hport : get_port_for_gpu env.gpu_ports (.str k) with
          | error e =>
            have : load_model env S model_id g o = (S, .error e) := by
              simp only [load_model, hn, hgm, hc, hport]
            rw [this]
            exact ⟨hwf, hdisj⟩
          | ok port =>
            by_cases hstart : o.start_ok
            · by_cases hready : o.ready
              · have hres : (load_model env S model_id g o).1.gpu_instances =
                    setKey S.gpu_instances k
                      { gpu_id := k, port := port, model_id := model_id,
                        model_config := cfg,
                        memory_used_mb := o.memory_used,
                        memory_total_mb := o.memory_total } := by
                  simp [load_model, hn, hgm, hc, hport, hstart, hready]
                rw [hres, setKey_eq_append hfresh]
                constructor
                · intro p hp
                  rcases List.mem_append.mp hp with hold | hnew
                  · exact hwf p hold
                  · have : p = (k, _) := List.mem_singleton.mp hnew
                    rw [this]
                    exact ⟨lg, hvk⟩
                · rw [DisjointKeys, List.pairwise_append]
                  refine ⟨hdisj, by simp, ?_⟩
                  intro a ha b hb
                  have hbk : b.1 = k := by
                    rw [List.mem_singleton.mp hb]
                  intro la lb hla hlb y hy
                  have hlbg : lb = lg := by
                    rw [hbk] at hlb
                    rw [hlb] at hvk
                    simpa using hvk
                  subst hlbg
                  intro hylb
                  exact hdisj_req a ha la hla y hylb hy
              · have : load_model env S model_id g o = (S, .error .serverNotReady) := by
                  simp only [load_model, hn, hgm, hc, hport]
                  rw [if_neg (by simpa using hstart), if_pos (by simpa using hready)]
                rw [this]
                exact ⟨hwf, hdisj⟩
            · have : load_model env S model_id g o = (S, .error .serverStartFailed) := by
                simp only [load_model, hn, hgm, hc, hport]
                rw [if_pos (by simpa using hstart)]
              rw [this]
              exact ⟨hwf, hdisj⟩

/-- Witness for C1: loading `"m1"` on `"0,1"` while the sample state owns
`"0"` is rejected with a conflict and leaves the state intact, and a load
onto the well-formed singleton state preserves the invariant. -/
theorem load_conflict_rejected_witness :
    ((load_model sampleEnv sampleState "m1" (.str "0,1") {}).1 = sampleState ∧
      ∃ ov k m,
        (load_model sampleEnv sampleState "m1" (.str "0,1") {}).2 =
          .error (.gpuConflict ov k m) ∧
        ov ≠ [] ∧
        ∃ inst, (k, inst) ∈ sampleState.gpu_instances ∧ inst.model_id = m) ∧
    (KeysValid (load_model sampleEnv sampleState "m1" (.str "1") {}).1.gpu_instances ∧
      DisjointKeys (load_model sampleEnv sampleState "m1" (.str "1") {}).1.gpu_instances) := by
  have hwf : KeysValid sampleState.gpu_instances := by
    intro p hp
    have hp' : p = ("0", sampleInstance) := by
      simpa [sampleState] using hp
    rw [hp']
    exact ⟨[0], by rfl⟩
  have hdisj : DisjointKeys sampleState.gpu_instances := by
    unfold DisjointKeys sampleState
    simp
  constructor
  · exact load_conflict_rejected.1 sampleEnv sampleState "m1" sampleModel
      (.str "0,1") [0, 1] {} (by rfl) (by rfl) hwf
      ⟨("0", sampleInstance), by simp [sampleState], [0], by rfl, 0, by simp, by simp⟩
  · exact load_conflict_rejected.2 sampleEnv sampleState "m1" (.str "1") {} hwf hdisj

end LlamaController
